import Mathlib

/-!
Verification of the entity handle of this repository against its
specification. The only source file present is src/entt/entity/handle.hpp,
which defines the forwarding proxy basic_handle over a registry pointer and
an entity identifier. The registry, the identifier allocator, the component
pools and the entity type live in headers that are not among the sources
(registry.hpp, entity.hpp, sparse_set.hpp); those parts are modelled from
the specification, as marked on each definition. Everything in the
basic_handle namespace is translated directly from handle.hpp.
-/

/-- Modelled from the spec: an entity identifier is an opaque value logically
split into an index and a generation, with a reserved null sentinel that
never compares equal to any live identifier; two identifiers are equal iff
both fields match (entity.hpp is not among the sources). -/
inductive Entity where
  | null : Entity
  | id (idx : Nat) (gen : Nat) : Entity
deriving DecidableEq

/-- Component values. The pools of the storage engine are typed; the model
uses one concrete value domain for the component values and a numeric key
for the component type, which suffices for the forwarding claims. -/
abbrev Val := Nat

/-- Addresses of registry objects: handles store a possibly null pointer to
a registry, modelled as an optional address into a heap of registries. -/
abbrev Addr := Nat

/-- Modelled from the spec: error taxonomy of the storage engine
(invalid-identifier, missing-component, duplicate-component). -/
inductive Err where
  | invalidIdentifier : Err
  | missingComponent : Err
  | duplicateComponent : Err
deriving DecidableEq

/-- Modelled from the spec: allocator state is a per-index generation table
(the table length is the highest-index counter) and a free list of indices
eligible for reuse (registry.hpp is not among the sources). -/
structure Allocator where
  gens : List Nat
  free : List Nat
deriving DecidableEq

/-- Modelled from the spec: valid is true iff the index is in range, not on
the free list, and its stored generation equals the generation of the
identifier; the null sentinel is never valid. -/
def Allocator.valid (al : Allocator) : Entity → Bool
  | Entity.null => false
  | Entity.id i g => decide (i < al.gens.length) && !(al.free.contains i) && (al.gens.getD i 0 == g)

/-- Modelled from the spec: create pops a free index, reusing its stored
(already advanced) generation, or mints a fresh index with generation zero. -/
def Allocator.create (al : Allocator) : Entity × Allocator :=
  match al.free with
  | i :: rest => (Entity.id i (al.gens.getD i 0), { al with free := rest })
  | [] => (Entity.id al.gens.length 0, { al with gens := al.gens ++ [0] })

/-- Modelled from the spec: a component pool is a sparse array from entity
index to dense position, a dense array of owning entity identifiers and a
parallel dense array of component values (sparse_set.hpp is not among the
sources). -/
structure Pool where
  sparse : List (Option Nat)
  dense : List Entity
  values : List Val
deriving DecidableEq

/-- The empty pool. -/
def Pool.empty : Pool := ⟨[], [], []⟩

/-- Write a slot of the sparse array, growing it with unset slots first when
the index is out of range. -/
def sparseSet (s : List (Option Nat)) (i : Nat) (v : Option Nat) : List (Option Nat) :=
  (s ++ List.replicate (i + 1 - s.length) none).set i v

/-- Dense position of an entity in a pool, through the sparse array; the
null sentinel has no position. -/
def Pool.posOf (p : Pool) : Entity → Option Nat
  | Entity.null => none
  | Entity.id i _ => p.sparse.getD i none

/-- Modelled from the spec: O(1) membership test through the sparse array. -/
def Pool.contains (p : Pool) (e : Entity) : Bool := (p.posOf e).isSome

/-- Value stored for an entity, when present. -/
def Pool.getVal (p : Pool) (e : Entity) : Option Val :=
  (p.posOf e).bind (fun pos => p.values.get? pos)

/-- Modelled from the spec: emplace requires the entity not already own a
component of this type, else it fails with duplicate-component; it appends
to the dense arrays and records the sparse mapping. -/
def Pool.emplace (p : Pool) (e : Entity) (v : Val) : Except Err (Val × Pool) :=
  match e with
  | Entity.null => Except.error Err.invalidIdentifier
  | Entity.id i _ =>
    if p.contains e then Except.error Err.duplicateComponent
    else Except.ok (v, { sparse := sparseSet p.sparse i (some p.dense.length),
                         dense := p.dense ++ [e],
                         values := p.values ++ [v] })

/-- Overwrite the value at a dense position in place. -/
def Pool.setAt (p : Pool) (pos : Nat) (v : Val) : Pool :=
  { p with values := p.values.set pos v }

/-- Modelled from the spec: replace requires an existing component and
overwrites it in place, failing with missing-component otherwise. -/
def Pool.replace (p : Pool) (e : Entity) (v : Val) : Except Err (Val × Pool) :=
  match p.posOf e with
  | none => Except.error Err.missingComponent
  | some pos => Except.ok (v, p.setAt pos v)

/-- Modelled from the spec: patch requires an existing component and applies
each mutator in sequence to the stored value in place. -/
def Pool.patch (p : Pool) (e : Entity) (fs : List (Val → Val)) : Except Err (Val × Pool) :=
  match p.posOf e with
  | none => Except.error Err.missingComponent
  | some pos =>
    let v := fs.foldl (fun acc f => f acc) (p.values.getD pos 0)
    Except.ok (v, p.setAt pos v)

/-- Modelled from the spec: remove requires an existing component and
performs swap-with-last-and-truncate on the dense arrays, updating the
sparse slot of the relocated element and unsetting the removed one. -/
def Pool.remove (p : Pool) (e : Entity) : Except Err Pool :=
  match e, p.posOf e with
  | Entity.id i _, some pos =>
    let last := p.dense.length - 1
    let le := p.dense.getD last Entity.null
    let lv := p.values.getD last 0
    let moved := match le with
      | Entity.id j _ => sparseSet p.sparse j (some pos)
      | Entity.null => p.sparse
    Except.ok { sparse := sparseSet moved i none,
                dense := (p.dense.set pos le).take last,
                values := (p.values.set pos lv).take last }
  | _, _ => Except.error Err.missingComponent

/-- Modelled from the spec: the if-exists removal variant never fails and
reports how many components (0 or 1) it removed. -/
def Pool.removeIfExists (p : Pool) (e : Entity) : Nat × Pool :=
  match p.remove e with
  | Except.ok p2 => (1, p2)
  | Except.error _ => (0, p)

/-- Modelled from the spec: the storage engine owns one pool per component
type key, created on first use and never destroyed individually, plus the
identifier allocator (registry.hpp is not among the sources). -/
structure Registry where
  alloc : Allocator
  pools : List (Nat × Pool)
deriving DecidableEq

/-- A registry with no issued identifiers and no pools. -/
def Registry.empty : Registry := ⟨⟨[], []⟩, []⟩

/-- Pool for a component type key; first use observes the empty pool. -/
def Registry.getPool (r : Registry) (t : Nat) : Pool :=
  match r.pools.find? (fun tp => tp.1 == t) with
  | some tp => tp.2
  | none => Pool.empty

/-- Store back the pool for a component type key, creating it on first use. -/
def Registry.setPool (r : Registry) (t : Nat) (p : Pool) : Registry :=
  if r.pools.any (fun tp => tp.1 == t) then
    { r with pools := r.pools.map (fun tp => if tp.1 == t then (t, p) else tp) }
  else
    { r with pools := r.pools ++ [(t, p)] }

/-- Modelled from the spec: identifier validity consults the allocator
bookkeeping. -/
def Registry.valid (r : Registry) (e : Entity) : Bool := r.alloc.valid e

/-- Modelled from the spec: create mints or recycles an identifier via the
allocator. -/
def Registry.create (r : Registry) : Entity × Registry :=
  let ea := r.alloc.create
  (ea.1, { r with alloc := ea.2 })

/-- Modelled from the spec: every per-entity operation fails with an
invalid-identifier condition for a dead or never-created identifier before
delegating to a pool; emplace then fails on a duplicate component. -/
def Registry.emplace (r : Registry) (t : Nat) (e : Entity) (v : Val) : Except Err Val × Registry :=
  if r.valid e then
    match (r.getPool t).emplace e v with
    | Except.ok xp => (Except.ok xp.1, r.setPool t xp.2)
    | Except.error err => (Except.error err, r)
  else (Except.error Err.invalidIdentifier, r)

/-- Modelled from the spec: construct if absent, else replace in place;
never fails on an already present component. -/
def Registry.emplace_or_replace (r : Registry) (t : Nat) (e : Entity) (v : Val) : Except Err Val × Registry :=
  if r.valid e then
    match (r.getPool t).posOf e with
    | some pos => (Except.ok v, r.setPool t ((r.getPool t).setAt pos v))
    | none =>
      match (r.getPool t).emplace e v with
      | Except.ok xp => (Except.ok xp.1, r.setPool t xp.2)
      | Except.error err => (Except.error err, r)
  else (Except.error Err.invalidIdentifier, r)

/-- Modelled from the spec: replace fails with missing-component if the
component is absent. -/
def Registry.replace (r : Registry) (t : Nat) (e : Entity) (v : Val) : Except Err Val × Registry :=
  if r.valid e then
    match (r.getPool t).replace e v with
    | Except.ok xp => (Except.ok xp.1, r.setPool t xp.2)
    | Except.error err => (Except.error err, r)
  else (Except.error Err.invalidIdentifier, r)

/-- Modelled from the spec: patch applies the mutators in sequence to the
existing component, failing with missing-component if absent. -/
def Registry.patch (r : Registry) (t : Nat) (e : Entity) (fs : List (Val → Val)) : Except Err Val × Registry :=
  if r.valid e then
    match (r.getPool t).patch e fs with
    | Except.ok xp => (Except.ok xp.1, r.setPool t xp.2)
    | Except.error err => (Except.error err, r)
  else (Except.error Err.invalidIdentifier, r)

/-- Modelled from the spec: remove removes each listed component type and
fails if any is absent. -/
def Registry.remove (r : Registry) (ts : List Nat) (e : Entity) : Except Err Unit × Registry :=
  if r.valid e then
    if ts.all (fun t => (r.getPool t).contains e) then
      (Except.ok (),
       ts.foldl (fun acc t =>
         match (acc.getPool t).remove e with
         | Except.ok p2 => acc.setPool t p2
         | Except.error _ => acc) r)
    else (Except.error Err.missingComponent, r)
  else (Except.error Err.invalidIdentifier, r)

/-- Modelled from the spec: the if-exists removal variant counts how many of
the listed component types were actually removed and never fails at the
pool level. -/
def Registry.remove_if_exists (r : Registry) (ts : List Nat) (e : Entity) : Except Err Nat × Registry :=
  if r.valid e then
    let res := ts.foldl (fun acc t =>
      let np := (acc.2.getPool t).removeIfExists e
      (acc.1 + np.1, acc.2.setPool t np.2)) ((0 : Nat), r)
    (Except.ok res.1, res.2)
  else (Except.error Err.invalidIdentifier, r)

/-- Modelled from the spec: remove_all removes every component of every type
currently attached to the entity and never fails at the pool level. -/
def Registry.remove_all (r : Registry) (e : Entity) : Except Err Unit × Registry :=
  if r.valid e then
    (Except.ok (), { r with pools := r.pools.map (fun tp => (tp.1, (tp.2.removeIfExists e).2)) })
  else (Except.error Err.invalidIdentifier, r)

/-- Modelled from the spec: has is true iff the entity owns all listed
component types. -/
def Registry.has (r : Registry) (ts : List Nat) (e : Entity) : Except Err Bool :=
  if r.valid e then Except.ok (ts.all (fun t => (r.getPool t).contains e))
  else Except.error Err.invalidIdentifier

/-- Modelled from the spec: any is true iff the entity owns at least one of
the listed component types. -/
def Registry.any (r : Registry) (ts : List Nat) (e : Entity) : Except Err Bool :=
  if r.valid e then Except.ok (ts.any (fun t => (r.getPool t).contains e))
  else Except.error Err.invalidIdentifier

/-- Modelled from the spec: get fails with missing-component if any
requested type is absent, else yields the stored values. -/
def Registry.get (r : Registry) (ts : List Nat) (e : Entity) : Except Err (List Val) :=
  if r.valid e then
    if ts.all (fun t => (r.getPool t).contains e) then
      Except.ok (ts.map (fun t => ((r.getPool t).getVal e).getD 0))
    else Except.error Err.missingComponent
  else Except.error Err.invalidIdentifier

/-- Modelled from the spec: construct from the given arguments if absent,
otherwise return the existing component. -/
def Registry.get_or_emplace (r : Registry) (t : Nat) (e : Entity) (v : Val) : Except Err Val × Registry :=
  if r.valid e then
    match (r.getPool t).getVal e with
    | some x => (Except.ok x, r)
    | none =>
      match (r.getPool t).emplace e v with
      | Except.ok xp => (Except.ok xp.1, r.setPool t xp.2)
      | Except.error err => (Except.error err, r)
  else (Except.error Err.invalidIdentifier, r)

/-- Modelled from the spec: try_get yields a null result for each absent
type and never fails at the pool level. -/
def Registry.try_get (r : Registry) (ts : List Nat) (e : Entity) : Except Err (List (Option Val)) :=
  if r.valid e then Except.ok (ts.map (fun t => (r.getPool t).getVal e))
  else Except.error Err.invalidIdentifier

/-- Modelled from the spec: orphan is true iff the entity owns zero
components. -/
def Registry.orphan (r : Registry) (e : Entity) : Except Err Bool :=
  if r.valid e then Except.ok (r.pools.all (fun tp => !(tp.2.contains e)))
  else Except.error Err.invalidIdentifier

/-- Modelled from the spec: visit reports each component type currently
owned by the entity once; the model returns the list of owned type keys. -/
def Registry.visit (r : Registry) (e : Entity) : Except Err (List Nat) :=
  if r.valid e then Except.ok ((r.pools.filter (fun tp => tp.2.contains e)).map (fun tp => tp.1))
  else Except.error Err.invalidIdentifier

/-- Heap of registry objects, addressed by pointer value: handle member
functions dereference the stored registry pointer into such a heap. -/
abbrev Heap := Addr → Registry

/-- Pointwise update of the heap at one address. -/
def Heap.update (σ : Heap) (a : Addr) (r : Registry) : Heap :=
  fun x => if x = a then r else σ x

/-- The handle of handle.hpp: a registry pointer (null when the optional is
none) and an entity identifier. The index ro distinguishes the two template
instantiations, basic_handle over a non-const entity type (ro = false,
mutable registry pointer) and over a const one (ro = true, read-only
registry pointer). -/
structure basic_handle (ro : Bool) where
  reg : Option Addr
  entt : Entity
deriving DecidableEq

/-- Default constructor of handle.hpp line 26: null registry pointer and
the null entity. -/
def basic_handle.mkDefault {ro : Bool} : basic_handle ro := ⟨none, Entity.null⟩

/-- Constructor of handle.hpp line 35 from a registry reference (never
null, hence always some address) and an entity identifier. -/
def basic_handle.ofRegistry {ro : Bool} (a : Addr) (e : Entity) : basic_handle ro := ⟨some a, e⟩

/-- Accessor registry of handle.hpp line 88: the stored registry pointer. -/
def basic_handle.registry {ro : Bool} (h : basic_handle ro) : Option Addr := h.reg

/-- Accessor entity of handle.hpp line 96: the stored entity identifier. -/
def basic_handle.entity {ro : Bool} (h : basic_handle ro) : Entity := h.entt

/-- Comparison operator of handle.hpp line 47, templated over the other
constness: same registry pointer and same entity. -/
def basic_handle.opEq {ro ro2 : Bool} (h : basic_handle ro) (other : basic_handle ro2) : Bool :=
  decide (h.reg = other.registry) && decide (h.entt = other.entity)

/-- Free comparison operator of handle.hpp line 274: negation of opEq. -/
def basic_handle.opNe {ro ro2 : Bool} (lhs : basic_handle ro) (rhs : basic_handle ro2) : Bool :=
  !(lhs.opEq rhs)

/-- Conversion operator of handle.hpp line 56 from the mutable handle to
the const one: when the registry pointer is non-null it rebuilds from the
dereferenced registry and the entity, otherwise it yields a default
constructed const handle. -/
def basic_handle.toConstHandle (h : basic_handle false) : basic_handle true :=
  match h.reg with
  | some a => basic_handle.ofRegistry a h.entt
  | none => basic_handle.mkDefault

/-- Conversion operator of handle.hpp line 64 to the underlying entity. -/
def basic_handle.toEntity {ro : Bool} (h : basic_handle ro) : Entity := h.entity

/-- Explicit bool conversion of handle.hpp line 72: non-null registry
pointer and entity different from the null sentinel. -/
def basic_handle.opBool {ro : Bool} (h : basic_handle ro) : Bool :=
  h.reg.isSome && decide (h.entt ≠ Entity.null)

/-- Shape of every read-only forwarding member of handle.hpp: dereference
the stored registry pointer and invoke the registry operation on the stored
entity; a null pointer dereference is the undefined branch, modelled as
none. -/
def basic_handle.readReg {ro : Bool} {α : Type} (h : basic_handle ro) (σ : Heap)
    (f : Registry → Entity → α) : Option α :=
  match h.reg with
  | some a => some (f (σ a) h.entt)
  | none => none

/-- Shape of every mutating forwarding member of handle.hpp: dereference
the stored registry pointer, invoke the registry operation on the stored
entity and write the updated registry back through the pointer; a null
pointer dereference is the undefined branch, modelled as none. -/
def basic_handle.onReg {α : Type} (h : basic_handle false) (σ : Heap)
    (f : Registry → Entity → α × Registry) : Option (α × Heap) :=
  match h.reg with
  | some a => some ((f (σ a) h.entt).1, Heap.update σ a (f (σ a) h.entt).2)
  | none => none

/-- Member valid of handle.hpp line 80: unconditionally dereferences the
registry pointer and asks the registry whether the entity is valid. -/
def basic_handle.valid {ro : Bool} (h : basic_handle ro) (σ : Heap) : Option Bool :=
  h.readReg σ Registry.valid

/-- Member emplace of handle.hpp line 108. -/
def basic_handle.emplace (h : basic_handle false) (σ : Heap) (t : Nat) (v : Val) :
    Option (Except Err Val × Heap) :=
  h.onReg σ (fun r e => Registry.emplace r t e v)

/-- Member emplace_or_replace of handle.hpp line 121. -/
def basic_handle.emplace_or_replace (h : basic_handle false) (σ : Heap) (t : Nat) (v : Val) :
    Option (Except Err Val × Heap) :=
  h.onReg σ (fun r e => Registry.emplace_or_replace r t e v)

/-- Member patch of handle.hpp line 134. -/
def basic_handle.patch (h : basic_handle false) (σ : Heap) (t : Nat) (fs : List (Val → Val)) :
    Option (Except Err Val × Heap) :=
  h.onReg σ (fun r e => Registry.patch r t e fs)

/-- Member replace of handle.hpp line 147. -/
def basic_handle.replace (h : basic_handle false) (σ : Heap) (t : Nat) (v : Val) :
    Option (Except Err Val × Heap) :=
  h.onReg σ (fun r e => Registry.replace r t e v)

/-- Member remove of handle.hpp line 157. -/
def basic_handle.remove (h : basic_handle false) (σ : Heap) (ts : List Nat) :
    Option (Except Err Unit × Heap) :=
  h.onReg σ (fun r e => Registry.remove r ts e)

/-- Member remove_if_exists of handle.hpp line 168. -/
def basic_handle.remove_if_exists (h : basic_handle false) (σ : Heap) (ts : List Nat) :
    Option (Except Err Nat × Heap) :=
  h.onReg σ (fun r e => Registry.remove_if_exists r ts e)

/-- Member remove_all of handle.hpp line 177. -/
def basic_handle.remove_all (h : basic_handle false) (σ : Heap) :
    Option (Except Err Unit × Heap) :=
  h.onReg σ (fun r e => Registry.remove_all r e)

/-- Member has of handle.hpp line 187. -/
def basic_handle.has {ro : Bool} (h : basic_handle ro) (σ : Heap) (ts : List Nat) :
    Option (Except Err Bool) :=
  h.readReg σ (fun r e => Registry.has r ts e)

/-- Member any of handle.hpp line 199. -/
def basic_handle.any {ro : Bool} (h : basic_handle ro) (σ : Heap) (ts : List Nat) :
    Option (Except Err Bool) :=
  h.readReg σ (fun r e => Registry.any r ts e)

/-- Member get of handle.hpp line 210. -/
def basic_handle.get {ro : Bool} (h : basic_handle ro) (σ : Heap) (ts : List Nat) :
    Option (Except Err (List Val)) :=
  h.readReg σ (fun r e => Registry.get r ts e)

/-- Member get_or_emplace of handle.hpp line 223. -/
def basic_handle.get_or_emplace (h : basic_handle false) (σ : Heap) (t : Nat) (v : Val) :
    Option (Except Err Val × Heap) :=
  h.onReg σ (fun r e => Registry.get_or_emplace r t e v)

/-- Member try_get of handle.hpp line 234. -/
def basic_handle.try_get {ro : Bool} (h : basic_handle ro) (σ : Heap) (ts : List Nat) :
    Option (Except Err (List (Option Val))) :=
  h.readReg σ (fun r e => Registry.try_get r ts e)

/-- Member orphan of handle.hpp line 243. -/
def basic_handle.orphan {ro : Bool} (h : basic_handle ro) (σ : Heap) :
    Option (Except Err Bool) :=
  h.readReg σ (fun r e => Registry.orphan r e)

/-- Member visit of handle.hpp line 253. -/
def basic_handle.visit {ro : Bool} (h : basic_handle ro) (σ : Heap) :
    Option (Except Err (List Nat)) :=
  h.readReg σ (fun r e => Registry.visit r e)

/-- Transcription of the member function surface declared by basic_handle
in handle.hpp, in declaration order; constructors are not listed. -/
def basic_handle.memberOps : List String :=
  ["operator==", "operator basic_handle<const entity_type>", "operator entity_type",
   "operator bool", "valid", "registry", "entity",
   "emplace", "emplace_or_replace", "patch", "replace",
   "remove", "remove_if_exists", "remove_all",
   "has", "any", "get", "get_or_emplace", "try_get", "orphan", "visit"]

/-- Transcription of the user-defined converting operators declared between
the two handle instantiations in handle.hpp: only the one of line 56, from
the mutable handle (ro = false) to the const one (ro = true). -/
inductive HandleConvDecl : Bool → Bool → Prop
  | mutToConst : HandleConvDecl false true

/-- Handles reachable through the public interface of handle.hpp: the
default constructor, the constructor from a registry reference and an
entity, and the image of the const conversion operator. -/
inductive basic_handle.Reachable : {ro : Bool} → basic_handle ro → Prop
  | dflt {ro : Bool} : Reachable (⟨none, Entity.null⟩ : basic_handle ro)
  | ctor {ro : Bool} (a : Addr) (e : Entity) : Reachable (⟨some a, e⟩ : basic_handle ro)
  | conv {h : basic_handle false} : Reachable h → Reachable h.toConstHandle

/-- C1: a handle constructed from a registry and an entity forwards each
typed operation (emplace, emplace_or_replace, patch, replace, remove,
remove_if_exists, remove_all, has, any, get, get_or_emplace, try_get,
orphan, visit, valid) to the corresponding registry operation invoked on
that registry with that entity and the same arguments, returning exactly
its value and performing exactly its state change through the registry
pointer; the handle adds no behaviour of its own. -/
theorem claim1_handle_forwards (σ : Heap) (a : Addr) (r : Registry) (e : Entity)
    (t : Nat) (v : Val) (ts : List Nat) (fs : List (Val → Val)) (hσ : σ a = r) :
    (basic_handle.ofRegistry a e : basic_handle false).emplace σ t v
      = some ((Registry.emplace r t e v).1, Heap.update σ a (Registry.emplace r t e v).2)
    ∧ (basic_handle.ofRegistry a e : basic_handle false).emplace_or_replace σ t v
      = some ((Registry.emplace_or_replace r t e v).1, Heap.update σ a (Registry.emplace_or_replace r t e v).2)
    ∧ (basic_handle.ofRegistry a e : basic_handle false).patch σ t fs
      = some ((Registry.patch r t e fs).1, Heap.update σ a (Registry.patch r t e fs).2)
    ∧ (basic_handle.ofRegistry a e : basic_handle false).replace σ t v
      = some ((Registry.replace r t e v).1, Heap.update σ a (Registry.replace r t e v).2)
    ∧ (basic_handle.ofRegistry a e : basic_handle false).remove σ ts
      = some ((Registry.remove r ts e).1, Heap.update σ a (Registry.remove r ts e).2)
    ∧ (basic_handle.ofRegistry a e : basic_handle false).remove_if_exists σ ts
      = some ((Registry.remove_if_exists r ts e).1, Heap.update σ a (Registry.remove_if_exists r ts e).2)
    ∧ (basic_handle.ofRegistry a e : basic_handle false).remove_all σ
      = some ((Registry.remove_all r e).1, Heap.update σ a (Registry.remove_all r e).2)
    ∧ (basic_handle.ofRegistry a e : basic_handle false).get_or_emplace σ t v
      = some ((Registry.get_or_emplace r t e v).1, Heap.update σ a (Registry.get_or_emplace r t e v).2)
    ∧ (basic_handle.ofRegistry a e : basic_handle false).has σ ts = some (Registry.has r ts e)
    ∧ (basic_handle.ofRegistry a e : basic_handle false).any σ ts = some (Registry.any r ts e)
    ∧ (basic_handle.ofRegistry a e : basic_handle false).get σ ts = some (Registry.get r ts e)
    ∧ (basic_handle.ofRegistry a e : basic_handle false).try_get σ ts = some (Registry.try_get r ts e)
    ∧ (basic_handle.ofRegistry a e : basic_handle false).orphan σ = some (Registry.orphan r e)
    ∧ (basic_handle.ofRegistry a e : basic_handle false).visit σ = some (Registry.visit r e)
    ∧ (basic_handle.ofRegistry a e : basic_handle false).valid σ = some (Registry.valid r e) := by
  subst hσ
  exact ⟨rfl, rfl, rfl, rfl, rfl, rfl, rfl, rfl, rfl, rfl, rfl, rfl, rfl, rfl, rfl⟩

/-- Witness for C1 at a concrete heap, registry and entity: the valid
conjunct, instantiated and with the heap hypothesis discharged by rfl. -/
theorem claim1_handle_forwards_witness :
    (basic_handle.ofRegistry 0 (Entity.id 0 0) : basic_handle false).valid (fun _ => Registry.empty)
      = some (Registry.valid Registry.empty (Entity.id 0 0)) :=
  (claim1_handle_forwards (fun _ => Registry.empty) 0 Registry.empty (Entity.id 0 0)
    0 0 [] [] rfl).2.2.2.2.2.2.2.2.2.2.2.2.2.2

/-- C2: handle comparison, across constness, is true iff both handles hold
the same registry pointer and the same entity identifier. -/
theorem claim2_handle_eq_iff :
    ∀ (ro ro2 : Bool) (h1 : basic_handle ro) (h2 : basic_handle ro2),
      h1.opEq h2 = true ↔ (h1.reg = h2.reg ∧ h1.entt = h2.entt) := by
  intro ro ro2 h1 h2
  simp [basic_handle.opEq, basic_handle.registry, basic_handle.entity]

/-- C3: the explicit boolean conversion of a handle is true iff its
registry pointer is non-null and its entity is not the null sentinel. -/
theorem claim3_bool_conv_iff :
    ∀ (ro : Bool) (h : basic_handle ro),
      h.opBool = true ↔ (h.reg ≠ none ∧ h.entt ≠ Entity.null) := by
  intro ro h
  cases h with
  | mk reg entt => cases reg <;> simp [basic_handle.opBool]

/-- C4: whenever valid returns true the boolean conversion is also true,
and the converse fails for some handle, since valid additionally consults
the allocator bookkeeping while the boolean conversion does not. -/
theorem claim4_bool_weaker_than_valid :
    (∀ (ro : Bool) (σ : Heap) (h : basic_handle ro), h.valid σ = some true → h.opBool = true)
    ∧ (∃ (σ : Heap) (h : basic_handle false), h.opBool = true ∧ h.valid σ ≠ some true) := by
  constructor
  · intro ro σ h hv
    cases h with
    | mk reg entt =>
      cases reg with
      | none => simp [basic_handle.valid, basic_handle.readReg] at hv
      | some a =>
        have hval : Registry.valid (σ a) entt = true := by
          simpa [basic_handle.valid, basic_handle.readReg] using hv
        cases entt with
        | null => simp [Registry.valid, Allocator.valid] at hval
        | id i g => simp [basic_handle.opBool]
  · exact ⟨fun _ => Registry.empty, basic_handle.ofRegistry 0 (Entity.id 0 0),
      by decide, by decide⟩

/-- Witness for C4 at a concrete registry with one live identifier: the
forward direction applied with its hypothesis discharged by decide. -/
theorem claim4_bool_weaker_than_valid_witness :
    (basic_handle.ofRegistry 0 (Entity.id 0 0) : basic_handle false).opBool = true :=
  claim4_bool_weaker_than_valid.1 false (fun _ => ⟨⟨[0], []⟩, []⟩)
    (basic_handle.ofRegistry 0 (Entity.id 0 0)) (by decide)

/-- C5: converting a mutable handle obtained through the public interface
to the const variant preserves the stored registry pointer and entity, and
the declared conversion surface goes from the mutable instantiation to the
const one only, never back. -/
theorem claim5_const_conversion :
    (∀ (h : basic_handle false), h.Reachable →
      (h.toConstHandle.reg = h.reg ∧ h.toConstHandle.entt = h.entt))
    ∧ HandleConvDecl false true ∧ ¬ HandleConvDecl true false := by
  refine ⟨?_, HandleConvDecl.mutToConst, fun hcd => nomatch hcd⟩
  intro h hr
  cases h with
  | mk reg entt =>
    cases reg with
    | some a => exact ⟨rfl, rfl⟩
    | none =>
      have hnull : entt = Entity.null := by
        cases hr
        rfl
      subst hnull
      exact ⟨rfl, rfl⟩

/-- Witness for C5 at a concrete handle built from a registry address and a
live entity, reachability discharged by the constructor case. -/
theorem claim5_const_conversion_witness :
    (basic_handle.ofRegistry 0 (Entity.id 1 2) : basic_handle false).toConstHandle.reg
      = (basic_handle.ofRegistry 0 (Entity.id 1 2) : basic_handle false).reg
    ∧ (basic_handle.ofRegistry 0 (Entity.id 1 2) : basic_handle false).toConstHandle.entt
      = (basic_handle.ofRegistry 0 (Entity.id 1 2) : basic_handle false).entt :=
  claim5_const_conversion.1 (basic_handle.ofRegistry 0 (Entity.id 1 2))
    (basic_handle.Reachable.ctor 0 (Entity.id 1 2))

/-- C6: a handle built from a registry address and an entity is bound to
that fixed pair: the entity accessor and the entity conversion return
exactly that entity, the registry accessor returns exactly that address,
and every member call, read-only or mutating, consults exactly the bound
pair and returns no modified handle, so the stored fields never change. -/
theorem claim6_fixed_binding :
    ∀ (ro : Bool) (a : Addr) (e : Entity),
      (basic_handle.ofRegistry a e : basic_handle ro).entity = e
      ∧ (basic_handle.ofRegistry a e : basic_handle ro).toEntity = e
      ∧ (basic_handle.ofRegistry a e : basic_handle ro).registry = some a
      ∧ (∀ (α : Type) (σ : Heap) (f : Registry → Entity → α),
          (basic_handle.ofRegistry a e : basic_handle ro).readReg σ f = some (f (σ a) e))
      ∧ (∀ (α : Type) (σ : Heap) (f : Registry → Entity → α × Registry),
          (basic_handle.ofRegistry a e : basic_handle false).onReg σ f
            = some ((f (σ a) e).1, Heap.update σ a (f (σ a) e).2)) := by
  intro ro a e
  exact ⟨rfl, rfl, rfl, fun α σ f => rfl, fun α σ f => rfl⟩

/-- C7: the free inequality operator is the negation of equality, and
handle equality is reflexive and symmetric across constness. -/
theorem claim7_ne_refl_symm :
    ∀ (ro ro2 : Bool) (h1 : basic_handle ro) (h2 : basic_handle ro2) (h : basic_handle ro),
      h1.opNe h2 = !(h1.opEq h2) ∧ h.opEq h = true ∧ h1.opEq h2 = h2.opEq h1 := by
  intro ro ro2 h1 h2 h
  refine ⟨rfl, ?_, ?_⟩
  · simp [basic_handle.opEq, basic_handle.registry, basic_handle.entity]
  · simp only [basic_handle.opEq, basic_handle.registry, basic_handle.entity]
    have e1 : decide (h1.reg = h2.reg) = decide (h2.reg = h1.reg) := by
      simp [eq_comm]
    have e2 : decide (h1.entt = h2.entt) = decide (h2.entt = h1.entt) := by
      simp [eq_comm]
    rw [e1, e2]

/-- C8 counterexample: the member function surface declared by basic_handle
in handle.hpp contains no create operation, so no handle operation forwards
create() to the storage engine. -/
theorem claim8_create_missing : "create" ∉ basic_handle.memberOps := by decide

/-- C8 amended: the handle forwards the typed per-entity operations and the
validity check of the storage engine (emplace, emplace_or_replace, patch,
replace, remove, remove_if_exists, remove_all, has, any, get,
get_or_emplace, try_get, orphan, visit, valid), but declares no create
operation; identifier creation is available on the storage engine only. -/
theorem claim8_surface :
    "emplace" ∈ basic_handle.memberOps
    ∧ "emplace_or_replace" ∈ basic_handle.memberOps
    ∧ "patch" ∈ basic_handle.memberOps
    ∧ "replace" ∈ basic_handle.memberOps
    ∧ "remove" ∈ basic_handle.memberOps
    ∧ "remove_if_exists" ∈ basic_handle.memberOps
    ∧ "remove_all" ∈ basic_handle.memberOps
    ∧ "has" ∈ basic_handle.memberOps
    ∧ "any" ∈ basic_handle.memberOps
    ∧ "get" ∈ basic_handle.memberOps
    ∧ "get_or_emplace" ∈ basic_handle.memberOps
    ∧ "try_get" ∈ basic_handle.memberOps
    ∧ "orphan" ∈ basic_handle.memberOps
    ∧ "visit" ∈ basic_handle.memberOps
    ∧ "valid" ∈ basic_handle.memberOps
    ∧ "create" ∉ basic_handle.memberOps
    ∧ (Registry.create Registry.empty).1 = Entity.id 0 0 := by
  refine ⟨?_, ?_, ?_, ?_, ?_, ?_, ?_, ?_, ?_, ?_, ?_, ?_, ?_, ?_, ?_, ?_, rfl⟩ <;> decide

/-- C9: valid unconditionally dereferences the registry pointer, hence it
is defined (some result) exactly when the pointer is non-null; on a default
constructed handle valid reaches the null dereference branch (none) while
the boolean conversion of the same handle safely returns false. -/
theorem claim9_valid_null_deref :
    (∀ (ro : Bool) (σ : Heap) (h : basic_handle ro), (h.valid σ).isSome = h.reg.isSome)
    ∧ (∀ (σ : Heap), (basic_handle.mkDefault : basic_handle false).valid σ = none)
    ∧ (basic_handle.mkDefault : basic_handle false).opBool = false := by
  refine ⟨?_, fun σ => rfl, rfl⟩
  intro ro σ h
  cases h with
  | mk reg entt => cases reg <;> rfl

/-- C10: every handle reachable through the public constructors and the
const conversion satisfies the invariant that a null registry pointer
implies the null entity; the default handle holds the null pointer and the
null entity, converts to false, and compares equal exactly to handles whose
fields are those of a default handle. -/
theorem claim10_reachable_inv :
    (∀ (ro : Bool) (h : basic_handle ro), h.Reachable → h.reg = none → h.entt = Entity.null)
    ∧ (basic_handle.mkDefault : basic_handle false).reg = none
    ∧ (basic_handle.mkDefault : basic_handle false).entt = Entity.null
    ∧ (basic_handle.mkDefault : basic_handle false).opBool = false
    ∧ (∀ (ro2 : Bool) (h : basic_handle ro2),
        (basic_handle.mkDefault : basic_handle false).opEq h = true
          ↔ (h.reg = none ∧ h.entt = Entity.null)) := by
  refine ⟨?_, rfl, rfl, rfl, ?_⟩
  · intro ro h hr hreg
    cases hr with
    | dflt => rfl
    | ctor a e => exact Option.noConfusion hreg
    | @conv g hg =>
      cases g with
      | mk greg gentt =>
        cases greg with
        | some a => exact Option.noConfusion hreg
        | none => rfl
  · intro ro2 h
    cases h with
    | mk reg entt =>
      constructor
      · intro hq
        have hq2 := (Bool.and_eq_true _ _).mp hq
        exact ⟨(of_decide_eq_true hq2.1).symm, (of_decide_eq_true hq2.2).symm⟩
      · intro hc
        obtain ⟨h1, h2⟩ := hc
        subst h1
        subst h2
        rfl

/-- Witness for C10: the invariant applied to the default const handle,
reachability and the null pointer hypothesis discharged concretely. -/
theorem claim10_reachable_inv_witness :
    (basic_handle.mkDefault : basic_handle true).entt = Entity.null :=
  claim10_reachable_inv.1 true basic_handle.mkDefault basic_handle.Reachable.dflt rfl
